import Mathlib

/-!
Shallow embedding of `src/dbrxr/__init__.py` (class `DBRXCluster`).

Modelling conventions:
* HTTP traffic is abstracted by a `Transport`: the response to the
  `POST commands/execute` submission and a stream of responses to the
  `GET commands/status` polls.  JSON payloads are modelled already parsed
  (`CommandInfo` mirrors `{status, results: {resultType, data}}`).
* Python exceptions are modelled with the `PyError` type and the
  `Outcome` result type.  A bare `raise` with no active exception raises
  `RuntimeError("No active exception to re-raise")` in Python; it is
  modelled as `PyError.runtimeError`.  Referencing a never-assigned local
  (`run_id` after a non-200 submission) raises `UnboundLocalError`,
  modelled as `PyError.unboundLocal`.
* The unbounded `while` poll loop is modelled with explicit fuel:
  `Outcome.timeout` means the fuel ran out while the loop condition was
  still true, so non-termination of the source loop corresponds to the
  model returning `timeout` for every fuel value.
* Observable side effects (HTTP requests issued, `time.sleep` calls) are
  collected in an `Event` trace.  `logging` calls only write log lines and
  affect neither state nor control flow; they are not modelled.
* Python truthiness of the optional context-id string (`if self._context:`)
  is `pyTruthy`: `None` and the empty string are falsy.
* In the Python class body the second `@api_token.setter` block
  (lines 81-83, a function named `api_token` that assigns `self._api_url`)
  rebinds the class attribute `api_token`, discarding the earlier setter
  (lines 61-67) that regenerated the headers.  The effective class
  therefore has: `api_token` whose setter assigns `_api_url` and leaves
  the headers untouched, and `api_url` with no setter at all (assigning
  it raises `AttributeError`).  Both effective behaviours are embedded.
-/

namespace DBRXR

/-- Parsed `results` object of a command-status payload. -/
structure ExecResults where
  resultType : String
  data : String
deriving DecidableEq, Repr

/-- Parsed command-status payload `{status, results}`. -/
structure CommandInfo where
  status : String
  results : ExecResults
deriving DecidableEq, Repr

/-- Response of a POST endpoint returning `{"id": ...}`:
either 200 with the id, or a non-200 code with the body text. -/
inductive PostIdResponse where
  | ok (id : String)
  | err (code : Nat) (text : String)
deriving DecidableEq, Repr

/-- Response of the `GET commands/status` endpoint:
either 200 with the parsed payload, or a non-200 code with body text. -/
inductive PollResponse where
  | ok (info : CommandInfo)
  | err (code : Nat) (text : String)
deriving DecidableEq, Repr

/-- Scripted remote side for one `_execute` call: the submission response
and the stream of poll responses (poll `k` gets `polls k`). -/
structure Transport where
  submit : PostIdResponse
  polls : Nat → PollResponse

/-- Observable effects of the client, in order. -/
inductive Event where
  | postCommandsExecute (command : String)
  | sleep (sec : Nat)
  | getCommandsStatus
  | postContextsCreate (name : String)
deriving DecidableEq, Repr

/-- Python exceptions that the embedded code can raise. -/
inductive PyError where
  | contextNotSet
  | unboundLocal (name : String)
  | runtimeError (msg : String)
  | attributeError (msg : String)
  | valueError (msg : String)
deriving DecidableEq, Repr

/-- Result of running a piece of embedded Python: a value, a raised
exception, or fuel exhaustion of an unbounded loop. -/
inductive Outcome (α : Type) where
  | ok (v : α)
  | raised (e : PyError)
  | timeout
deriving DecidableEq, Repr

/-- The mutable state of a `DBRXCluster` instance. -/
structure ClientState where
  api_url : String
  api_token : String
  /-- The `Authorization` value inside `self._headers`
  (`Content-Type` is constant and omitted). -/
  headers_auth : String
  cluster_id : Option String
  context : Option String
  polling_int_sec : Nat
  rpy2 : Option Bool
deriving DecidableEq, Repr

/-- Python truthiness of the optional context-id string:
`None` and `""` are falsy. -/
def pyTruthy : Option String → Bool
  | none => false
  | some s => !(s = "")

/-- `DBRXCluster.__init__` (lines 29-55): validates `rpy2`, stores url and
token, builds the auth header, leaves cluster id and context unset. -/
def init_client (api_url api_token : String) (polling_int_sec : Nat)
    (rpy2 : String) : Except PyError ClientState :=
  if rpy2 = "yes" ∨ rpy2 = "no" ∨ rpy2 = "check" then
    .ok
      { api_url := api_url
        api_token := api_token
        headers_auth := "Bearer " ++ api_token
        cluster_id := none
        context := none
        polling_int_sec := polling_int_sec
        rpy2 :=
          if rpy2 = "yes" then some true
          else if rpy2 = "no" then some false
          else none }
  else
    .error (.valueError "Invalid rpy2 type.")

/-- Effective `api_token` setter of the class: the second
`@api_token.setter` block (lines 81-83) shadows the first (lines 61-67),
so assigning `c.api_token = v` runs `self._api_url = v` and does NOT
touch the headers. -/
def set_api_token (st : ClientState) (v : String) : ClientState :=
  { st with api_url := v }

/-- Assigning `c.api_url = v`: the `api_url` property (lines 77-79) has no
setter in the effective class, so Python raises `AttributeError`. -/
def set_api_url (_st : ClientState) (_v : String) :
    Except PyError ClientState :=
  .error (.attributeError "property api_url of DBRXCluster object has no setter")

/-- `cluster_id` setter (lines 73-75). -/
def set_cluster_id (st : ClientState) (v : Option String) : ClientState :=
  { st with cluster_id := v }

/-- The `while status == "Running" or status == "Queued"` loop of
`_execute` (lines 270-283), with explicit fuel.  Each iteration sleeps,
then GETs the status; a 200 response replaces `status` and
`command_info`, a non-200 response is only logged and leaves both
unchanged.  Returns `none` when the fuel runs out with the condition
still true, otherwise `some (status, command_info)` at loop exit. -/
def pollLoop (polls : Nat → PollResponse) (interval : Nat) :
    Nat → Nat → String → Option CommandInfo →
    Option (String × Option CommandInfo) × List Event
  | 0, _k, status, info =>
    if status = "Running" ∨ status = "Queued" then (none, [])
    else (some (status, info), [])
  | fuel + 1, k, status, info =>
    if status = "Running" ∨ status = "Queued" then
      match polls k with
      | .ok ci =>
        let r := pollLoop polls interval fuel (k + 1) ci.status (some ci)
        (r.1, Event.sleep interval :: Event.getCommandsStatus :: r.2)
      | .err _ _ =>
        let r := pollLoop polls interval fuel (k + 1) status info
        (r.1, Event.sleep interval :: Event.getCommandsStatus :: r.2)
    else (some (status, info), [])

/-- `DBRXCluster._execute` (lines 238-292).  Raises
`ContextNotSetException` when no context is set; POSTs the command; on a
non-200 submission only logs, so the following `if run_id is not None:`
raises `UnboundLocalError` (`run_id` was never assigned); otherwise runs
the poll loop starting from `status = "Running"` and returns the full
payload only when the terminal status is exactly `"Finished"`, else
`None`. -/
def execute_impl (t : Transport) (st : ClientState) (command : String)
    (fuel : Nat) : Outcome (Option CommandInfo) × List Event :=
  match st.context with
  | none => (.raised .contextNotSet, [])
  | some _ =>
    match t.submit with
    | .err _ _ =>
      (.raised (.unboundLocal "run_id"), [Event.postCommandsExecute command])
    | .ok _run_id =>
      match pollLoop t.polls st.polling_int_sec fuel 0 "Running" none with
      | (none, ev) => (.timeout, Event.postCommandsExecute command :: ev)
      | (some (status, info), ev) =>
        if status = "Finished" then
          match info with
          | some ci =>
            (.ok (some ci), Event.postCommandsExecute command :: ev)
          | none =>
            (.raised (.unboundLocal "command_info"),
              Event.postCommandsExecute command :: ev)
        else
          (.ok none, Event.postCommandsExecute command :: ev)

/-- The probe snippet built by `_python_package_installed` (lines 193-199);
`\x27` is the apostrophe character. -/
def pyProbeCode (package : String) : String :=
  "\n        try:\n            import " ++ package ++
  "\n            print(\"Success\")\n        except ImportError as e:\n            print(\"Failure\")\n        "

/-- `DBRXCluster._python_package_installed` (lines 189-219): submits the
probe snippet via `_execute` and classifies the textual result.  The
`raise` statements are bare `raise` with no active exception, which in
Python raises `RuntimeError("No active exception to re-raise")`. -/
def python_package_installed (t : Transport) (st : ClientState)
    (package : String) (fuel : Nat) : Outcome Bool × List Event :=
  match execute_impl t st (pyProbeCode package) fuel with
  | (.raised e, ev) => (.raised e, ev)
  | (.timeout, ev) => (.timeout, ev)
  | (.ok res, ev) =>
    match res with
    | some r =>
      if r.results.resultType = "text" ∧ r.results.data = "Success" then
        (.ok true, ev)
      else if r.results.resultType = "text" ∧ r.results.data = "Failure" then
        (.ok false, ev)
      else if r.results.resultType = "error" then
        (.raised (.runtimeError "No active exception to re-raise"), ev)
      else
        (.raised (.runtimeError "No active exception to re-raise"), ev)
    | none => (.raised (.runtimeError "No active exception to re-raise"), ev)

/-- The pip-install snippet built by `install_py_package` (lines 128-130);
`\x27` is the apostrophe character. -/
def installPyCode (package : String) : String :=
  "\n            import subprocess\n            subprocess.check_output([\x27pip\x27, \x27install\x27, \x27" ++
  package ++ "\x27])"

/-- The remote side for a whole `install_py_package` call: `calls k` is
the transport answering its `k`-th `_execute` round trip (presence
check, install command, re-check). -/
structure Session where
  calls : Nat → Transport

/-- `DBRXCluster.install_py_package` (lines 119-139): if the presence
check reports installed, return `True` at once; otherwise submit the pip
install snippet, then re-run the presence check and return its answer. -/
def install_py_package (s : Session) (st : ClientState) (package : String)
    (fuel : Nat) : Outcome Bool × List Event :=
  match python_package_installed (s.calls 0) st package fuel with
  | (.ok true, ev) => (.ok true, ev)
  | (.ok false, ev) =>
    match execute_impl (s.calls 1) st (installPyCode package) fuel with
    | (.raised e, ev2) => (.raised e, ev ++ ev2)
    | (.timeout, ev2) => (.timeout, ev ++ ev2)
    | (.ok _, ev2) =>
      let r := python_package_installed (s.calls 2) st package fuel
      (r.1, ev ++ ev2 ++ r.2)
  | (.raised e, ev) => (.raised e, ev)
  | (.timeout, ev) => (.timeout, ev)

/-- The rpy2 wrapper snippet built by `execute_R` (lines 231-234);
`\x27` is the apostrophe character. -/
def rWrapCode (r_code : String) : String :=
  "\n        import rpy2.robjects as robjects\n        res = robjects.r(\x27\x27\x27" ++
  r_code ++ "\x27\x27\x27)\n        res.r_repr()"

/-- Python return value of `execute_R`: the literal `False`, or whatever
`_execute` returned. -/
inductive ExecuteRResult where
  | retFalse
  | retExec (v : Option CommandInfo)
deriving DecidableEq, Repr

/-- `DBRXCluster.execute_R` (lines 221-236): raises
`ContextNotSetException` when no context is set; returns `False` when
`self.rpy2` is falsy (`None` or `False`); otherwise wraps the R code and
delegates to `_execute`. -/
def execute_R (t : Transport) (st : ClientState) (r_code : String)
    (fuel : Nat) : Outcome ExecuteRResult × List Event :=
  match st.context with
  | none => (.raised .contextNotSet, [])
  | some _ =>
    if st.rpy2 = some true then
      match execute_impl t st (rWrapCode r_code) fuel with
      | (.ok v, ev) => (.ok (.retExec v), ev)
      | (.raised e, ev) => (.raised e, ev)
      | (.timeout, ev) => (.timeout, ev)
    else
      (.ok .retFalse, [])

/-- `DBRXCluster.create_context` (lines 85-116): when `self._context` is
truthy, only log and return `False`; otherwise POST `contexts/create`.
On 200, store the returned id and, when `self.rpy2 is None`, resolve the
flag by running the rpy2 presence probe in the new context; return
`True`.  On non-200, return `False`. -/
def create_context (createResp : PostIdResponse) (probe : Transport)
    (st : ClientState) (name : String) (fuel : Nat) :
    Outcome (Bool × ClientState) × List Event :=
  if pyTruthy st.context then
    (.ok (false, st), [])
  else
    match createResp with
    | .ok id =>
      let st' := { st with context := some id }
      match st'.rpy2 with
      | none =>
        match python_package_installed probe st' "rpy2" fuel with
        | (.ok b, ev) =>
          (.ok (true, { st' with rpy2 := some b }),
            Event.postContextsCreate name :: ev)
        | (.raised e, ev) => (.raised e, Event.postContextsCreate name :: ev)
        | (.timeout, ev) => (.timeout, Event.postContextsCreate name :: ev)
      | some _ => (.ok (true, st'), [Event.postContextsCreate name])
    | .err _ _ => (.ok (false, st), [Event.postContextsCreate name])

/-- The commands a trace actually POSTed to `commands/execute`. -/
def submittedCommands : List Event → List String
  | [] => []
  | Event.postCommandsExecute c :: rest => c :: submittedCommands rest
  | _ :: rest => submittedCommands rest

/-! Scripted transports used by the claims. -/

/-- Status payload placeholder for polls while the run is not finished. -/
def queuedInfo : CommandInfo := ⟨"Queued", ⟨"", ""⟩⟩

/-- The C1 scripted transport: submission succeeds, polls report
"Queued" twice and then "Finished" with `results.data = "42"`. -/
def t42 : Transport :=
  { submit := .ok "run-1"
    polls := fun k =>
      if k < 2 then .ok queuedInfo
      else .ok ⟨"Finished", ⟨"text", "42"⟩⟩ }

/-- A transport whose status endpoint reports "Queued" forever. -/
def foreverQueued : Transport :=
  { submit := .ok "run-1", polls := fun _ => .ok queuedInfo }

/-- A transport whose status endpoint fails (non-200) forever. -/
def foreverErr : Transport :=
  { submit := .ok "run-1", polls := fun _ => .err 500 "Internal Server Error" }

/-- A transport whose submission POST fails with a non-200 status. -/
def errSubmitTransport : Transport :=
  { submit := .err 500 "boom", polls := fun _ => .ok queuedInfo }

/-- A transport whose first poll already reports terminal status
`"Finished"` carrying the given result. -/
def finishedTransport (rt d : String) : Transport :=
  { submit := .ok "run-1", polls := fun _ => .ok ⟨"Finished", ⟨rt, d⟩⟩ }

/-- A transport whose first poll reports terminal status `"Failed"`. -/
def failedTransport : Transport :=
  { submit := .ok "run-1", polls := fun _ => .ok ⟨"Failed", ⟨"text", "x"⟩⟩ }

/-- A convenient concrete client state with a context set. -/
def baseState : ClientState :=
  { api_url := "https://dbc.example.net/api/1.2"
    api_token := "tok-1"
    headers_auth := "Bearer tok-1"
    cluster_id := some "cluster-1"
    context := some "ctx-1"
    polling_int_sec := 1
    rpy2 := some false }

/-- `baseState` with a configurable polling interval. -/
def st42 (i : Nat) : ClientState := { baseState with polling_int_sec := i }

/-- The terminal payload reported by `t42`. -/
def info42 : CommandInfo := ⟨"Finished", ⟨"text", "42"⟩⟩

/-! Helper lemmas about the poll loop and `_execute`. -/

theorem pollLoop_exit (polls : Nat → PollResponse) (interval fuel k : Nat)
    (status : String) (info : Option CommandInfo)
    (h : ¬(status = "Running" ∨ status = "Queued")) :
    pollLoop polls interval fuel k status info = (some (status, info), []) := by
  cases fuel <;> simp only [pollLoop, if_neg h]

theorem pollLoop_zero (polls : Nat → PollResponse) (interval k : Nat)
    (status : String) (info : Option CommandInfo)
    (h : status = "Running" ∨ status = "Queued") :
    pollLoop polls interval 0 k status info = (none, []) := by
  simp only [pollLoop, if_pos h]

theorem pollLoop_step_ok (polls : Nat → PollResponse)
    (interval fuel k : Nat) (status : String) (info : Option CommandInfo)
    (ci : CommandInfo) (r : Option (String × Option CommandInfo))
    (ev : List Event)
    (h : status = "Running" ∨ status = "Queued")
    (hp : polls k = .ok ci)
    (hrec : pollLoop polls interval fuel (k + 1) ci.status (some ci) = (r, ev)) :
    pollLoop polls interval (fuel + 1) k status info =
      (r, Event.sleep interval :: Event.getCommandsStatus :: ev) := by
  simp only [pollLoop, if_pos h, hp, hrec]

theorem pollLoop_step_err (polls : Nat → PollResponse)
    (interval fuel k : Nat) (status : String) (info : Option CommandInfo)
    (code : Nat) (text : String) (r : Option (String × Option CommandInfo))
    (ev : List Event)
    (h : status = "Running" ∨ status = "Queued")
    (hp : polls k = .err code text)
    (hrec : pollLoop polls interval fuel (k + 1) status info = (r, ev)) :
    pollLoop polls interval (fuel + 1) k status info =
      (r, Event.sleep interval :: Event.getCommandsStatus :: ev) := by
  simp only [pollLoop, if_pos h, hp, hrec]

theorem execute_impl_no_ctx (t : Transport) (st : ClientState)
    (cmd : String) (fuel : Nat) (hctx : st.context = none) :
    execute_impl t st cmd fuel = (.raised .contextNotSet, []) := by
  simp only [execute_impl, hctx]

theorem execute_impl_submit_err (t : Transport) (st : ClientState)
    (cmd : String) (fuel : Nat) (c : String) (code : Nat) (text : String)
    (hctx : st.context = some c) (hsub : t.submit = .err code text) :
    execute_impl t st cmd fuel =
      (.raised (.unboundLocal "run_id"), [Event.postCommandsExecute cmd]) := by
  simp only [execute_impl, hctx, hsub]

theorem execute_impl_timeout (t : Transport) (st : ClientState)
    (cmd : String) (fuel : Nat) (c rid : String) (ev : List Event)
    (hctx : st.context = some c) (hsub : t.submit = .ok rid)
    (hpoll : pollLoop t.polls st.polling_int_sec fuel 0 "Running" none =
      (none, ev)) :
    execute_impl t st cmd fuel =
      (.timeout, Event.postCommandsExecute cmd :: ev) := by
  simp only [execute_impl, hctx, hsub, hpoll]

theorem execute_impl_finished (t : Transport) (st : ClientState)
    (cmd : String) (fuel : Nat) (c rid : String) (ci : CommandInfo)
    (ev : List Event)
    (hctx : st.context = some c) (hsub : t.submit = .ok rid)
    (hpoll : pollLoop t.polls st.polling_int_sec fuel 0 "Running" none =
      (some ("Finished", some ci), ev)) :
    execute_impl t st cmd fuel =
      (.ok (some ci), Event.postCommandsExecute cmd :: ev) := by
  simp only [execute_impl, hctx, hsub, hpoll]
  simp

theorem execute_impl_other_terminal (t : Transport) (st : ClientState)
    (cmd : String) (fuel : Nat) (c rid s : String)
    (info : Option CommandInfo) (ev : List Event)
    (hctx : st.context = some c) (hsub : t.submit = .ok rid)
    (hs : s ≠ "Finished")
    (hpoll : pollLoop t.polls st.polling_int_sec fuel 0 "Running" none =
      (some (s, info), ev)) :
    execute_impl t st cmd fuel =
      (.ok none, Event.postCommandsExecute cmd :: ev) := by
  simp only [execute_impl, hctx, hsub, hpoll]
  simp [hs]

/-! Claim theorems. -/

/-- C10: `__init__` validates its `rpy2` argument: every value outside
`{"yes", "no", "check"}` raises `ValueError` and no client is built;
`"yes"` resolves the flag to `True`, `"no"` to `False`, and `"check"`
leaves it unresolved (`None`). -/
theorem claim_C10_init_rpy2_validation :
    (∀ url tok i r, r ≠ "yes" → r ≠ "no" → r ≠ "check" →
      init_client url tok i r = .error (.valueError "Invalid rpy2 type.")) ∧
    (∀ url tok i, ∃ st, init_client url tok i "yes" = .ok st ∧
      st.rpy2 = some true) ∧
    (∀ url tok i, ∃ st, init_client url tok i "no" = .ok st ∧
      st.rpy2 = some false) ∧
    (∀ url tok i, ∃ st, init_client url tok i "check" = .ok st ∧
      st.rpy2 = none) := by
  refine ⟨?_, ?_, ?_, ?_⟩
  · intro url tok i r h1 h2 h3
    simp [init_client, h1, h2, h3]
  · intro url tok i; exact ⟨_, rfl, rfl⟩
  · intro url tok i; exact ⟨_, rfl, rfl⟩
  · intro url tok i; exact ⟨_, rfl, rfl⟩

/-- Witness for C10 at `rpy2 = "maybe"` and `rpy2 = "yes"`. -/
theorem claim_C10_witness :
    init_client "https://h" "t" 1 "maybe" =
      .error (.valueError "Invalid rpy2 type.") ∧
    ∃ st, init_client "https://h" "t" 1 "yes" = .ok st ∧
      st.rpy2 = some true :=
  ⟨claim_C10_init_rpy2_validation.1 "https://h" "t" 1 "maybe"
      (by decide) (by decide) (by decide),
    claim_C10_init_rpy2_validation.2.1 "https://h" "t" 1⟩

/-- C3 (code bug): the claim says token or URL updates through the public
setters regenerate the `Authorization` header.  In the class body the
block at lines 81-83 (`@api_token.setter` on a function named
`api_token` that assigns `self._api_url`) rebinds the `api_token`
attribute, discarding the header-regenerating setter of lines 61-67, and
leaves the `api_url` property with no setter at all.  Evaluating the
effective class at the failing input: the client is built with token
`"t1"`, then `c.api_token = "t2"` is assigned; the header still carries
`"t1"` and the base URL was clobbered to `"t2"`, while assigning
`c.api_url` raises `AttributeError`. -/
theorem claim_C3_token_setter_leaves_header_stale :
    ∃ st, init_client "https://host" "t1" 1 "no" = .ok st ∧
      st.headers_auth = "Bearer t1" ∧
      (set_api_token st "t2").headers_auth = "Bearer t1" ∧
      (set_api_token st "t2").api_token = "t1" ∧
      (set_api_token st "t2").api_url = "t2" ∧
      set_api_url st "t2" =
        .error (.attributeError
          "property api_url of DBRXCluster object has no setter") :=
  ⟨_, rfl, rfl, rfl, rfl, rfl, rfl⟩

/-- C2 counterexample: with a scripted transport whose run-submission
POST returns 500, `_execute` does not proceed into the poll step without
raising: it raises `UnboundLocalError` on `run_id` (never assigned in
the non-200 branch), and the trace shows no poll or sleep ever
happened. -/
theorem claim_C2_counterexample :
    execute_impl errSubmitTransport baseState "print(1)" 5 =
      (.raised (.unboundLocal "run_id"),
        [Event.postCommandsExecute "print(1)"]) := rfl

/-- C2 (amended): when the run-submission POST returns a non-200 status,
the error is logged and `_execute` then raises `UnboundLocalError` at
`if run_id is not None:` (the local `run_id` was never assigned); the
poll step is never reached. -/
theorem claim_C2_submit_err_raises (t : Transport) (st : ClientState)
    (cmd : String) (fuel : Nat) (c : String) (code : Nat) (text : String)
    (hctx : st.context = some c) (hsub : t.submit = .err code text) :
    execute_impl t st cmd fuel =
      (.raised (.unboundLocal "run_id"), [Event.postCommandsExecute cmd]) :=
  execute_impl_submit_err t st cmd fuel c code text hctx hsub

/-- Witness for the amended C2, at a concrete failing transport. -/
theorem claim_C2_witness :
    execute_impl errSubmitTransport baseState "x = 1" 3 =
      (.raised (.unboundLocal "run_id"),
        [Event.postCommandsExecute "x = 1"]) :=
  claim_C2_submit_err_raises errSubmitTransport baseState "x = 1" 3
    "ctx-1" 500 "boom" rfl rfl

/-- C4 counterexample: with no active context, `execute_R` raises
`ContextNotSetException` instead of logging and returning `False`. -/
theorem claim_C4_counterexample :
    execute_R t42 { baseState with context := none } "1+1" 5 =
      (.raised .contextNotSet, []) := rfl

/-- C4 (amended): `execute_R` raises `ContextNotSetException` when no
context is active; only when a context is active but the R-interop flag
is not resolved to `True` does it log and return `False` (without
issuing any request). -/
theorem claim_C4_execute_R_requirements :
    (∀ t st r_code fuel, st.context = none →
      execute_R t st r_code fuel = (.raised .contextNotSet, [])) ∧
    (∀ t st r_code fuel c, st.context = some c → st.rpy2 ≠ some true →
      execute_R t st r_code fuel = (.ok .retFalse, [])) := by
  constructor
  · intro t st r_code fuel hctx
    simp only [execute_R, hctx]
  · intro t st r_code fuel c hctx hflag
    simp only [execute_R, hctx, if_neg hflag]

/-- Witness for the amended C4: both branches at concrete inputs. -/
theorem claim_C4_witness :
    execute_R t42 { baseState with context := none } "x" 2 =
      (.raised .contextNotSet, []) ∧
    execute_R t42 baseState "x" 2 = (.ok .retFalse, []) :=
  ⟨claim_C4_execute_R_requirements.1 t42 _ "x" 2 rfl,
    claim_C4_execute_R_requirements.2 t42 baseState "x" 2 "ctx-1" rfl
      (by decide)⟩

/-- C6 counterexample: a client whose context identifier is set to the
empty string has `self._context` falsy, so `create_context` does NOT
take the already-exists branch: it issues the `contexts/create` POST,
overwrites the stored context identifier and returns `True`. -/
theorem claim_C6_counterexample :
    ({ baseState with context := some "" } : ClientState).context.isSome ∧
    create_context (.ok "ctx-2") t42
        { baseState with context := some "" } "ctx" 3 =
      (.ok (true, { baseState with context := some "ctx-2" }),
        [Event.postContextsCreate "ctx"]) :=
  ⟨rfl, rfl⟩

/-- C6 (amended): for every client whose context identifier is set to a
non-empty string (Python-truthy, the only way `create_context` itself
ever sets it from a real service), `create_context` returns `False`,
issues no HTTP request and leaves the whole client state unchanged. -/
theorem claim_C6_create_context_noop (resp : PostIdResponse)
    (probe : Transport) (st : ClientState) (name : String) (fuel : Nat)
    (h : pyTruthy st.context = true) :
    create_context resp probe st name fuel = (.ok (false, st), []) := by
  simp only [create_context, h, if_pos]

/-- Witness for the amended C6 at a concrete client with context
`"ctx-1"`. -/
theorem claim_C6_witness :
    create_context (.ok "ctx-2") t42 baseState "ctx" 3 =
      (.ok (false, baseState), []) :=
  claim_C6_create_context_noop (.ok "ctx-2") t42 baseState "ctx" 3 rfl

/-- C1: against the scripted transport `t42` (status "Queued" on the
first two polls, then "Finished" with `results.data = "42"`),
`_execute` performs exactly three status polls, sleeping the configured
polling interval before each one, and returns the full status payload
containing `"42"`.  Stated for every polling interval `i`, every
submitted command and every loop-fuel bound of at least three. -/
theorem claim_C1_three_polls (i fuel : Nat) (cmd : String) :
    execute_impl t42 (st42 i) cmd (fuel + 3) =
      (.ok (some info42),
        [Event.postCommandsExecute cmd,
          Event.sleep i, Event.getCommandsStatus,
          Event.sleep i, Event.getCommandsStatus,
          Event.sleep i, Event.getCommandsStatus]) ∧
    info42.results.data = "42" := by
  constructor
  · have e3 : pollLoop t42.polls i fuel 3 "Finished" (some info42) =
        (some ("Finished", some info42), []) :=
      pollLoop_exit _ _ _ _ _ _ (by decide)
    have e2 := pollLoop_step_ok t42.polls i fuel 2 "Queued"
      (some queuedInfo) info42 _ _ (Or.inr rfl) rfl e3
    have e1 := pollLoop_step_ok t42.polls i (fuel + 1) 1 "Queued"
      (some queuedInfo) queuedInfo _ _ (Or.inr rfl) rfl e2
    have e0 := pollLoop_step_ok t42.polls i (fuel + 2) 0 "Running"
      none queuedInfo _ _ (Or.inl rfl) rfl e1
    exact execute_impl_finished t42 (st42 i) cmd (fuel + 3) "ctx-1"
      "run-1" info42 _ rfl rfl e0
  · rfl

/-- C5: after a successful submission, `_execute` returns the full
status payload exactly when the terminal status the poll loop stopped at
is `"Finished"`; for every other terminal status it returns `None` and
does not raise. -/
theorem claim_C5_finished_iff (t : Transport) (st : ClientState)
    (cmd : String) (fuel : Nat) (c rid s : String) (i : CommandInfo)
    (ev : List Event)
    (hctx : st.context = some c) (hsub : t.submit = .ok rid)
    (hpoll : pollLoop t.polls st.polling_int_sec fuel 0 "Running" none =
      (some (s, some i), ev)) :
    ((execute_impl t st cmd fuel).1 = .ok (some i) ↔ s = "Finished") ∧
    (s ≠ "Finished" → (execute_impl t st cmd fuel).1 = .ok none) := by
  by_cases hs : s = "Finished"
  · subst hs
    rw [execute_impl_finished t st cmd fuel c rid i ev hctx hsub hpoll]
    simp
  · rw [execute_impl_other_terminal t st cmd fuel c rid s (some i) ev
      hctx hsub hs hpoll]
    simp [hs]

/-- Witness for C5 at a transport whose terminal status is "Failed":
`_execute` returns `None` and does not raise. -/
theorem claim_C5_witness :
    ((execute_impl failedTransport baseState "c" 1).1 =
        .ok (some ⟨"Failed", ⟨"text", "x"⟩⟩) ↔ ("Failed" : String) = "Finished") ∧
    (("Failed" : String) ≠ "Finished" →
      (execute_impl failedTransport baseState "c" 1).1 = .ok none) :=
  claim_C5_finished_iff failedTransport baseState "c" 1 "ctx-1" "run-1"
    "Failed" ⟨"Failed", ⟨"text", "x"⟩⟩
    [Event.sleep 1, Event.getCommandsStatus] rfl rfl (by decide)

theorem execute_finishedTransport (st : ClientState) (cmd : String)
    (fuel : Nat) (c rt d : String) (hctx : st.context = some c) :
    execute_impl (finishedTransport rt d) st cmd (fuel + 1) =
      (.ok (some ⟨"Finished", ⟨rt, d⟩⟩),
        [Event.postCommandsExecute cmd, Event.sleep st.polling_int_sec,
          Event.getCommandsStatus]) := by
  have e1 : pollLoop (finishedTransport rt d).polls st.polling_int_sec
      fuel 1 "Finished" (some ⟨"Finished", ⟨rt, d⟩⟩) =
      (some ("Finished", some ⟨"Finished", ⟨rt, d⟩⟩), []) :=
    pollLoop_exit _ _ _ _ _ _ (by decide)
  have e0 := pollLoop_step_ok (finishedTransport rt d).polls
    st.polling_int_sec fuel 0 "Running" none ⟨"Finished", ⟨rt, d⟩⟩ _ _
    (Or.inl rfl) rfl e1
  exact execute_impl_finished _ st cmd (fuel + 1) c "run-1" _ _ hctx rfl e0

/-- C7: the Python presence probe classifies the remote result by its
printed sentinel: a text result `"Success"` yields installed, a text
result `"Failure"` yields not installed, any other literal text raises,
a result of type `"error"` raises, and a missing (`None`) result from
`_execute` also raises.  (All three `raise` statements are bare `raise`
with no active exception, so Python raises
`RuntimeError("No active exception to re-raise")`.) -/
theorem claim_C7_probe_classification (st : ClientState) (p : String)
    (fuel : Nat) (c : String) (hctx : st.context = some c) :
    ((python_package_installed (finishedTransport "text" "Success") st p
        (fuel + 1)).1 = .ok true) ∧
    ((python_package_installed (finishedTransport "text" "Failure") st p
        (fuel + 1)).1 = .ok false) ∧
    (∀ d, d ≠ "Success" → d ≠ "Failure" →
      (python_package_installed (finishedTransport "text" d) st p
        (fuel + 1)).1 =
        .raised (.runtimeError "No active exception to re-raise")) ∧
    (∀ d, (python_package_installed (finishedTransport "error" d) st p
        (fuel + 1)).1 =
        .raised (.runtimeError "No active exception to re-raise")) ∧
    (∀ t fuel2, (execute_impl t st (pyProbeCode p) fuel2).1 = .ok none →
      (python_package_installed t st p fuel2).1 =
        .raised (.runtimeError "No active exception to re-raise")) := by
  refine ⟨?_, ?_, ?_, ?_, ?_⟩
  · rw [python_package_installed,
      execute_finishedTransport st (pyProbeCode p) fuel c "text" "Success" hctx]
    simp
  · rw [python_package_installed,
      execute_finishedTransport st (pyProbeCode p) fuel c "text" "Failure" hctx]
    simp
  · intro d hd1 hd2
    rw [python_package_installed,
      execute_finishedTransport st (pyProbeCode p) fuel c "text" d hctx]
    simp [hd1, hd2]
  · intro d
    rw [python_package_installed,
      execute_finishedTransport st (pyProbeCode p) fuel c "error" d hctx]
    simp
  · intro t fuel2 hnone
    rcases hpair : execute_impl t st (pyProbeCode p) fuel2 with ⟨o, ev2⟩
    rw [hpair] at hnone
    have ho : o = .ok none := hnone
    subst ho
    rw [python_package_installed, hpair]

/-- Witness for C7 at concrete transports and the package `"numpy"`. -/
theorem claim_C7_witness :
    ((python_package_installed (finishedTransport "text" "Success")
        baseState "numpy" 1).1 = .ok true) ∧
    ((python_package_installed (finishedTransport "text" "Other")
        baseState "numpy" 1).1 =
      .raised (.runtimeError "No active exception to re-raise")) ∧
    ((python_package_installed failedTransport baseState "numpy" 1).1 =
      .raised (.runtimeError "No active exception to re-raise")) :=
  ⟨(claim_C7_probe_classification baseState "numpy" 0 "ctx-1" rfl).1,
    (claim_C7_probe_classification baseState "numpy" 0 "ctx-1" rfl).2.2.1
      "Other" (by decide) (by decide),
    (claim_C7_probe_classification baseState "numpy" 0 "ctx-1" rfl).2.2.2.2
      failedTransport 1 (by decide)⟩

theorem pollLoop_no_submissions (polls : Nat → PollResponse)
    (interval : Nat) :
    ∀ fuel k status info,
      submittedCommands (pollLoop polls interval fuel k status info).2 = [] := by
  intro fuel
  induction fuel with
  | zero =>
    intro k status info
    by_cases h : status = "Running" ∨ status = "Queued" <;>
      simp [pollLoop, h, submittedCommands]
  | succ n ih =>
    intro k status info
    by_cases h : status = "Running" ∨ status = "Queued"
    · simp only [pollLoop, if_pos h]
      cases hp : polls k with
      | ok ci => simp [submittedCommands, ih]
      | err code text => simp [submittedCommands, ih]
    · simp [pollLoop, h, submittedCommands]

theorem execute_impl_submissions (t : Transport) (st : ClientState)
    (cmd : String) (fuel : Nat) :
    submittedCommands (execute_impl t st cmd fuel).2 = [] ∨
    submittedCommands (execute_impl t st cmd fuel).2 = [cmd] := by
  have hev : submittedCommands
      (pollLoop t.polls st.polling_int_sec fuel 0 "Running" none).2 = [] :=
    pollLoop_no_submissions _ _ _ _ _ _
  rcases hpair : pollLoop t.polls st.polling_int_sec fuel 0 "Running" none
    with ⟨o, ev⟩
  rw [hpair] at hev
  cases hctx : st.context with
  | none => left; simp [execute_impl, hctx, submittedCommands]
  | some c =>
    cases hsub : t.submit with
    | err code text =>
      right; simp [execute_impl, hctx, hsub, submittedCommands]
    | ok rid =>
      right
      simp only [execute_impl, hctx, hsub, hpair]
      cases o with
      | none => simpa [submittedCommands] using hev
      | some pr =>
        rcases pr with ⟨s, info⟩
        by_cases hs : s = "Finished"
        · subst hs
          cases info <;> simpa [submittedCommands] using hev
        · simpa [hs, submittedCommands] using hev

theorem python_probe_submissions (t : Transport) (st : ClientState)
    (p : String) (fuel : Nat) :
    submittedCommands (python_package_installed t st p fuel).2 = [] ∨
    submittedCommands (python_package_installed t st p fuel).2 =
      [pyProbeCode p] := by
  have h := execute_impl_submissions t st (pyProbeCode p) fuel
  rcases hpair : execute_impl t st (pyProbeCode p) fuel with ⟨o, ev⟩
  rw [hpair] at h
  simp only [python_package_installed, hpair]
  cases o with
  | raised e => exact h
  | timeout => exact h
  | ok res =>
    cases res with
    | none => exact h
    | some r =>
      by_cases h1 : r.results.resultType = "text" ∧ r.results.data = "Success"
      · simpa [h1] using h
      · by_cases h2 : r.results.resultType = "text" ∧ r.results.data = "Failure"
        · simpa [h1, h2] using h
        · by_cases h3 : r.results.resultType = "error"
          · simpa [h1, h2, h3] using h
          · simpa [h1, h2, h3] using h

theorem installPyCode_ne_probe (p : String) :
    installPyCode p ≠ pyProbeCode p := by
  intro h
  have hl := congrArg String.length h
  rw [installPyCode, pyProbeCode] at hl
  simp only [String.length_append] at hl
  have h1 : ("\n            import subprocess\n            subprocess.check_output([\x27pip\x27, \x27install\x27, \x27" : String).length = 87 := by decide
  have h2 : ("\x27])" : String).length = 3 := by decide
  have h3 : ("\n        try:\n            import " : String).length = 33 := by decide
  have h4 : ("\n            print(\"Success\")\n        except ImportError as e:\n            print(\"Failure\")\n        " : String).length = 100 := by decide
  rw [h1, h2, h3, h4] at hl
  omega

/-- C8: `install_py_package` is idempotent on already-installed
packages: whenever the presence check reports the package installed, it
returns `True` immediately, its observable trace is exactly that of the
presence check, and no pip-install command is ever submitted. -/
theorem claim_C8_install_idempotent (s : Session) (st : ClientState)
    (package : String) (fuel : Nat)
    (h : (python_package_installed (s.calls 0) st package fuel).1 = .ok true) :
    (install_py_package s st package fuel).1 = .ok true ∧
    install_py_package s st package fuel =
      python_package_installed (s.calls 0) st package fuel ∧
    installPyCode package ∉
      submittedCommands (install_py_package s st package fuel).2 := by
  rcases hpp : python_package_installed (s.calls 0) st package fuel
    with ⟨o, ev⟩
  rw [hpp] at h
  have ho : o = .ok true := h
  subst ho
  have hsubm := python_probe_submissions (s.calls 0) st package fuel
  rw [hpp] at hsubm
  refine ⟨?_, ?_, ?_⟩
  · simp [install_py_package, hpp]
  · simp [install_py_package, hpp]
  · simp only [install_py_package, hpp]
    rcases hsubm with hnil | hone
    · simp only at hnil ⊢
      rw [hnil]
      simp
    · simp only at hone ⊢
      rw [hone]
      simp [installPyCode_ne_probe]

/-- Witness for C8: a session whose presence check reports installed;
`install_py_package` returns `True` and never submits the pip-install
command. -/
theorem claim_C8_witness :
    (install_py_package ⟨fun _ => finishedTransport "text" "Success"⟩
        baseState "numpy" 1).1 = .ok true ∧
    install_py_package ⟨fun _ => finishedTransport "text" "Success"⟩
        baseState "numpy" 1 =
      python_package_installed (finishedTransport "text" "Success")
        baseState "numpy" 1 ∧
    installPyCode "numpy" ∉
      submittedCommands (install_py_package
        ⟨fun _ => finishedTransport "text" "Success"⟩ baseState "numpy" 1).2 :=
  claim_C8_install_idempotent
    ⟨fun _ => finishedTransport "text" "Success"⟩ baseState "numpy" 1
    (by decide)

theorem pollLoop_some_not_running (polls : Nat → PollResponse)
    (interval : Nat) :
    ∀ fuel k status info s i ev,
      pollLoop polls interval fuel k status info = (some (s, i), ev) →
      ¬(s = "Running" ∨ s = "Queued") := by
  intro fuel
  induction fuel with
  | zero =>
    intro k status info s i ev h
    by_cases hc : status = "Running" ∨ status = "Queued"
    · simp [pollLoop, hc] at h
    · simp only [pollLoop, if_neg hc, Prod.mk.injEq, Option.some.injEq] at h
      obtain ⟨⟨hs, _⟩, _⟩ := h
      subst hs
      exact hc
  | succ n ih =>
    intro k status info s i ev h
    by_cases hc : status = "Running" ∨ status = "Queued"
    · simp only [pollLoop, if_pos hc] at h
      cases hp : polls k with
      | ok ci =>
        rw [hp] at h
        simp only at h
        rcases hr : pollLoop polls interval n (k + 1) ci.status (some ci)
          with ⟨r1, ev1⟩
        rw [hr] at h
        obtain ⟨h1, _⟩ := Prod.mk.injEq .. ▸ h
        have h1' : r1 = some (s, i) := h1
        exact ih (k + 1) ci.status (some ci) s i ev1 (by rw [hr, h1'])
      | err code text =>
        rw [hp] at h
        simp only at h
        rcases hr : pollLoop polls interval n (k + 1) status info
          with ⟨r1, ev1⟩
        rw [hr] at h
        obtain ⟨h1, _⟩ := Prod.mk.injEq .. ▸ h
        have h1' : r1 = some (s, i) := h1
        exact ih (k + 1) status info s i ev1 (by rw [hr, h1'])
    · simp only [pollLoop, if_neg hc, Prod.mk.injEq, Option.some.injEq] at h
      obtain ⟨⟨hs, _⟩, _⟩ := h
      subst hs
      exact hc

theorem pollLoop_foreverQueued_none (interval : Nat) :
    ∀ fuel k status info, (status = "Running" ∨ status = "Queued") →
      (pollLoop foreverQueued.polls interval fuel k status info).1 = none := by
  intro fuel
  induction fuel with
  | zero => intro k status info h; simp [pollLoop, h]
  | succ n ih =>
    intro k status info h
    simp only [pollLoop, if_pos h]
    exact ih (k + 1) "Queued" (some queuedInfo) (Or.inr rfl)

theorem pollLoop_foreverErr_none (interval : Nat) :
    ∀ fuel k status info, (status = "Running" ∨ status = "Queued") →
      (pollLoop foreverErr.polls interval fuel k status info).1 = none := by
  intro fuel
  induction fuel with
  | zero => intro k status info h; simp [pollLoop, h]
  | succ n ih =>
    intro k status info h
    simp only [pollLoop, if_pos h]
    exact ih (k + 1) status info h

/-- C9: the poll loop has no timeout, deadline or maximum-attempts
bound.  (1) Whenever the loop exits, the status it stopped at is outside
`{Running, Queued}`; (2) it exits immediately, polling nothing, as soon
as the status leaves that set; (3) against a transport that reports
"Queued" forever, `_execute` is still inside the loop after every fuel
bound (i.e. the loop never terminates); (4) the same holds for a
transport whose poll responses are all non-200, which leave the stale
status in place. -/
theorem claim_C9_unbounded_poll_loop :
    (∀ (polls : Nat → PollResponse) interval fuel k status info s i ev,
      pollLoop polls interval fuel k status info = (some (s, i), ev) →
      ¬(s = "Running" ∨ s = "Queued")) ∧
    (∀ (polls : Nat → PollResponse) interval fuel k status info,
      ¬(status = "Running" ∨ status = "Queued") →
      pollLoop polls interval fuel k status info = (some (status, info), [])) ∧
    (∀ (st : ClientState) cmd fuel c, st.context = some c →
      (execute_impl foreverQueued st cmd fuel).1 = .timeout) ∧
    (∀ (st : ClientState) cmd fuel c, st.context = some c →
      (execute_impl foreverErr st cmd fuel).1 = .timeout) := by
  refine ⟨?_, ?_, ?_, ?_⟩
  · intro polls interval fuel k status info s i ev h
    exact pollLoop_some_not_running polls interval fuel k status info s i ev h
  · intro polls interval fuel k status info h
    exact pollLoop_exit polls interval fuel k status info h
  · intro st cmd fuel c hctx
    have h0 := pollLoop_foreverQueued_none st.polling_int_sec fuel 0
      "Running" none (Or.inl rfl)
    rcases hpair : pollLoop foreverQueued.polls st.polling_int_sec fuel 0
      "Running" none with ⟨o, ev⟩
    rw [hpair] at h0
    have ho : o = none := h0
    subst ho
    rw [execute_impl_timeout foreverQueued st cmd fuel c "run-1" ev hctx
      rfl hpair]
  · intro st cmd fuel c hctx
    have h0 := pollLoop_foreverErr_none st.polling_int_sec fuel 0
      "Running" none (Or.inl rfl)
    rcases hpair : pollLoop foreverErr.polls st.polling_int_sec fuel 0
      "Running" none with ⟨o, ev⟩
    rw [hpair] at h0
    have ho : o = none := h0
    subst ho
    rw [execute_impl_timeout foreverErr st cmd fuel c "run-1" ev hctx
      rfl hpair]

/-- Witness for C9: concrete instances of all four conjuncts. -/
theorem claim_C9_witness :
    ¬(("Failed" : String) = "Running" ∨ ("Failed" : String) = "Queued") ∧
    pollLoop t42.polls 1 5 0 "Done" none = (some ("Done", none), []) ∧
    (execute_impl foreverQueued baseState "x" 9).1 = .timeout ∧
    (execute_impl foreverErr baseState "x" 9).1 = .timeout :=
  ⟨claim_C9_unbounded_poll_loop.1 failedTransport.polls 1 1 0 "Running"
      none "Failed" (some ⟨"Failed", ⟨"text", "x"⟩⟩)
      [Event.sleep 1, Event.getCommandsStatus] (by decide),
    claim_C9_unbounded_poll_loop.2.1 t42.polls 1 5 0 "Done" none (by decide),
    claim_C9_unbounded_poll_loop.2.2.1 baseState "x" 9 "ctx-1" rfl,
    claim_C9_unbounded_poll_loop.2.2.2 baseState "x" 9 "ctx-1" rfl⟩

end DBRXR
